import Mathlib

/-!
Verification of the file-normalization and workflow-orchestration pipeline of the
contractor-app repository (apps/langgraph/src/file_processor).

The Python source is shallowly embedded: bytes are `List Nat`, Python `float`
timestamps and money amounts are `ℚ`, `Optional[str]` is `Option String`, and a
fallible Python call is an `Except String` value.  All external collaborators
(the HTTP transport, pdf2image + PIL, the BAML transcription / estimation
services, the Gemini upload, ffmpeg, Supabase storage) are oracles collected in
an environment record, so each theorem quantifies over their behavior.
The local filesystem seen by the video pipeline is a list of existing paths.
-/

/-- Image payload as built by `baml_py.Image.from_base64` (media type plus base64 text). -/
structure BamlImage where
  media_type : String
  base64 : String
deriving DecidableEq, Repr

/-- Audio payload as built by `baml_py.Audio.from_base64`. -/
structure BamlAudio where
  media_type : String
  base64 : String
deriving DecidableEq, Repr

/-- The `InputFile` record of `baml_client.types` as used throughout `graph.py`:
a name, a declared MIME type, an optional description, an optional download URL,
and the three content slots (`content`, `image_data`, `audio_data`). -/
structure InputFile where
  name : String
  type : String
  description : Option String := none
  download_url : Option String := none
  content : Option String := none
  image_data : Option BamlImage := none
  audio_data : Option BamlAudio := none
deriving DecidableEq, Repr

/-- Number of populated content slots of a canonical input file. -/
def contentSlotCount (f : InputFile) : Nat :=
  (if f.content.isSome then 1 else 0)
    + (if f.image_data.isSome then 1 else 0)
    + (if f.audio_data.isSome then 1 else 0)

/-- Python truthiness of an `Optional[str]`: `None` and `""` are falsy. -/
def truthyOptStr : Option String → Bool
  | none => false
  | some s => !(s == "")

/-- Boolean prefix test on character lists (model of Python `str.startswith`). -/
def startsList : List Char → List Char → Bool
  | [], _ => true
  | _ :: _, [] => false
  | a :: as, b :: bs => a == b && startsList as bs

/-- Model of Python `s.startswith(p)`. -/
def pyStartsWith (s p : String) : Bool := startsList p.data s.data

/-- An HTTP response as observed by `download_from_url`: status code,
declared content type and raw body bytes. -/
structure HttpResponse where
  status : Nat
  contentType : Option String := none
  body : List Nat := []
deriving DecidableEq, Repr

/-- Result of a download: raw bytes (`as_bytes=True`) or decoded text. -/
inductive DLContent where
  | bytes : List Nat → DLContent
  | str : String → DLContent
deriving DecidableEq, Repr

/-- The line-item record of `state.py` (`EstimateLineItem`); Python floats are `ℚ`. -/
structure EstimateLineItem where
  description : String
  category : String
  subcategory : Option String := none
  cost_range_min : ℚ
  cost_range_max : ℚ
  unit : Option String := none
  quantity : Option ℚ := none
  assumptions : Option String := none
  confidence_score : Option String := none
  notes : Option String := none
deriving DecidableEq

/-- The structured estimate record of `state.py` (`ConstructionProjectData`). -/
structure ConstructionProjectData where
  project_description : String
  estimated_total_min : Option ℚ := none
  estimated_total_max : Option ℚ := none
  estimated_timeline_days : Option Int := none
  key_considerations : List String := []
  confidence_level : String
  estimate_items : List EstimateLineItem := []
  next_steps : List String := []
  missing_information : List String := []
  key_risks : List String := []
deriving DecidableEq

/-- A Python attribute value of the run state (string, file list, or estimate). -/
inductive StateAttrVal where
  | vStr : String → StateAttrVal
  | vFiles : List InputFile → StateAttrVal
  | vEstimate : Option ConstructionProjectData → StateAttrVal
deriving DecidableEq

/-- The run-state dataclass of `state.py` (lines 120-149): exactly the fields
`project_info`, `files`, `updated_project_info` and `ai_estimate`. -/
structure State where
  project_info : String := ""
  files : List InputFile := []
  updated_project_info : String := ""
  ai_estimate : Option ConstructionProjectData := none
deriving DecidableEq

/-- Python attribute lookup on a `State` instance: the four dataclass fields
resolve, and any other attribute raises `AttributeError`. -/
def getStateAttr (st : State) (a : String) : Except String StateAttrVal :=
  if a = "project_info" then .ok (.vStr st.project_info)
  else if a = "files" then .ok (.vFiles st.files)
  else if a = "updated_project_info" then .ok (.vStr st.updated_project_info)
  else if a = "ai_estimate" then .ok (.vEstimate st.ai_estimate)
  else .error ("AttributeError: State object has no attribute " ++ a)

/-- Oracle environment of the document pipeline: HTTP transport, text codecs,
pdf2image-plus-PIL page rendering, and the BAML transcription / estimation
services.  Each is an arbitrary function, so theorems hold for every behavior. -/
structure Env where
  http : String → Except String HttpResponse
  bodyText : List Nat → String
  decodeUtf8 : List Nat → Option String
  b64encode : List Nat → String
  convertPdf : List Nat → Except String (List (List Nat))
  transcribe : InputFile → Except String String
  generateProjectEstimate :
    StateAttrVal → StateAttrVal → StateAttrVal → Except String ConstructionProjectData

/-- Text produced by the `as_bytes=False` path of `download_from_url`:
UTF-8 decode, falling back to base64 text on a decode error. -/
def textOf (env : Env) (bs : List Nat) : String :=
  match env.decodeUtf8 bs with
  | some s => s
  | none => env.b64encode bs

/-- Model of `download_from_url` (graph.py lines 81-121): one GET; any status
other than 200 raises an error carrying the status code and the response body;
the declared content type is compared with the expected prefix only to log a
warning, so it has no semantic effect here. -/
def download_from_url (env : Env) (url : String) (as_bytes : Bool)
    (_expectedMime : Option String) : Except String DLContent :=
  match env.http url with
  | .error e => .error e
  | .ok resp =>
    if resp.status ≠ 200 then
      .error ("Failed to download from URL " ++ url ++ ": "
        ++ toString resp.status ++ " " ++ env.bodyText resp.body)
    else if as_bytes then
      .ok (.bytes resp.body)
    else
      .ok (.str (textOf env resp.body))

/-- Rightmost index of a character in a list (model of Python `str.rfind`). -/
def rfindChar (cs : List Char) (c : Char) : Option Nat :=
  cs.enum.foldl (fun acc p => if p.2 = c then some p.1 else acc) none

/-- Root part of CPython `os.path.splitext`: cut at the last dot, provided the
dot lies after the last path separator and the basename is not made of leading
dots only. -/
def splitextRoot (p : String) : String :=
  let cs := p.data
  match rfindChar cs '.' with
  | none => p
  | some dotIdx =>
    let start := match rfindChar cs '/' with
      | none => 0
      | some sepIdx => sepIdx + 1
    if dotIdx < start then p
    else if ((cs.drop start).take (dotIdx - start)).all (fun c => c = '.') then p
    else ⟨cs.take dotIdx⟩

/-- Python whitespace characters stripped by `str.rstrip()` (ASCII range). -/
def pyIsSpace (c : Char) : Bool :=
  c == ' ' || c == '\t' || c == '\n' || c == '\x0b' || c == '\x0c' || c == '\r'

/-- Model of Python `str.rstrip()`. -/
def pyRstrip (s : String) : String :=
  ⟨(s.data.reverse.dropWhile pyIsSpace).reverse⟩

/-- The sanitizer of graph.py line 50: keep alphanumerics, spaces, dots and
underscores, replace every other character with an underscore, then strip
trailing whitespace.  (`Char.isAlphanum` matches Python `str.isalnum` on the
ASCII inputs this pipeline deals with.) -/
def pySanitizeName (base : String) : String :=
  pyRstrip ⟨base.data.map (fun c =>
    if c.isAlphanum || c == ' ' || c == '.' || c == '_' then c else '_')⟩

/-- Sanitized base name of an original file name (splitext root, then sanitize). -/
def safeBaseNameOf (original_file_name : String) : String :=
  pySanitizeName (splitextRoot original_file_name)

/-- Description base used for PDF page descriptions:
`original_file_description or original_file_name` with Python truthiness. -/
def pdfDescBase (original_file_description : Option String)
    (original_file_name : String) : String :=
  match original_file_description with
  | none => original_file_name
  | some d => if d = "" then original_file_name else d

/-- One derived PDF page file (graph.py lines 47-76): page-numbered PNG name,
synthesized description, base64 image payload, and no download URL. -/
def mkPdfPageFile (env : Env) (safe_base_name descBase : String)
    (page_num : Nat) (page_bytes : List Nat) : InputFile :=
  { name := safe_base_name ++ "_page_" ++ toString page_num ++ ".png",
    type := "image/png",
    description := some ("Page " ++ toString page_num ++ " of PDF document: " ++ descBase),
    download_url := none,
    content := none,
    image_data := some { media_type := "image/png", base64 := env.b64encode page_bytes },
    audio_data := none }

/-- The page loop of `_process_pdf_to_image_input_files_sync`: pages are
numbered from `n` upward in order; a page whose encoded bytes are empty is
skipped with a warning (its page number is still consumed). -/
def pdfPageFiles (env : Env) (safe_base_name descBase : String) :
    List (List Nat) → Nat → List InputFile
  | [], _ => []
  | b :: rest, n =>
    if b = [] then pdfPageFiles env safe_base_name descBase rest (n + 1)
    else mkPdfPageFile env safe_base_name descBase n b
      :: pdfPageFiles env safe_base_name descBase rest (n + 1)

/-- Model of `_process_pdf_to_image_input_files_sync` (graph.py lines 26-79):
render the PDF (pdf2image + PIL save, merged into the `convertPdf` oracle which
yields the PNG bytes of each page); zero rendered pages is a fatal error naming
the source file; otherwise build the per-page files. -/
def process_pdf_to_image_input_files_sync (env : Env) (pdf_bytes : List Nat)
    (original_file_name : String) (original_file_description : Option String) :
    Except String (List InputFile) :=
  match env.convertPdf pdf_bytes with
  | .error e => .error e
  | .ok pil_images =>
    if pil_images = [] then
      .error ("PDF file " ++ original_file_name ++ " converted to zero pages/images.")
    else
      .ok (pdfPageFiles env (safeBaseNameOf original_file_name)
        (pdfDescBase original_file_description original_file_name) pil_images 1)

/-- The audio `InputFile` handed to the transcription service: the original
descriptor fields plus the freshly downloaded base64 audio payload. -/
def audioPreFile (env : Env) (f : InputFile) (audio_bytes : List Nat) : InputFile :=
  { name := f.name,
    type := f.type,
    description := f.description,
    download_url := f.download_url,
    content := none,
    image_data := none,
    audio_data := some { media_type := f.type, base64 := env.b64encode audio_bytes } }

/-- Processing of a single descriptor inside the `process_files` loop
(graph.py lines 129-202): a falsy `download_url` is a fatal error before any
dispatch; otherwise dispatch on the declared MIME type in source order
(pdf, image, audio, text, video, other), with video and unsupported types
yielding zero files. -/
def processOneFile (env : Env) (f : InputFile) : Except String (List InputFile) :=
  if truthyOptStr f.download_url = false then
    .error ("File " ++ f.name ++ " has no download_url, cannot process.")
  else
    let url := f.download_url.getD ""
    if pyStartsWith f.type "application/pdf" then
      match download_from_url env url true (some "application/pdf") with
      | .error e => .error e
      | .ok (.str _) => .error "TypeError: bytes expected"
      | .ok (.bytes pdf_bytes) =>
        process_pdf_to_image_input_files_sync env pdf_bytes f.name f.description
    else if pyStartsWith f.type "image/" then
      match download_from_url env url true (some "image/") with
      | .error e => .error e
      | .ok (.str _) => .error "TypeError: bytes expected"
      | .ok (.bytes image_bytes) =>
        .ok [{ name := f.name, type := f.type, description := f.description,
               download_url := f.download_url,
               content := none,
               image_data := some { media_type := f.type, base64 := env.b64encode image_bytes },
               audio_data := none }]
    else if pyStartsWith f.type "audio/" then
      match download_from_url env url true (some "audio/") with
      | .error e => .error e
      | .ok (.str _) => .error "TypeError: bytes expected"
      | .ok (.bytes audio_bytes) =>
        let pre := audioPreFile env f audio_bytes
        match env.transcribe pre with
        | .error e => .error e
        | .ok transcription =>
          let updated : InputFile :=
            { pre with content := some transcription,
                       audio_data := none,
                       type := "text/plain" }
          .ok [updated]
    else if pyStartsWith f.type "text/" then
      match download_from_url env url false (some "text/") with
      | .error e => .error e
      | .ok (.bytes _) => .error "TypeError: str expected"
      | .ok (.str txt) =>
        .ok [{ name := f.name, type := f.type, description := f.description,
               download_url := f.download_url,
               content := some txt }]
    else if pyStartsWith f.type "video/" then
      .ok []
    else
      .ok []

/-- Model of `process_files` (graph.py lines 124-204): process the descriptors
in order, concatenating outputs; the first per-file error aborts the whole
step with that error (strict-fail policy). -/
def process_files (env : Env) : List InputFile → Except String (List InputFile)
  | [] => .ok []
  | f :: rest =>
    match processOneFile env f with
    | .error e => .error e
    | .ok outs =>
      match process_files env rest with
      | .error e => .error e
      | .ok more => .ok (outs ++ more)

/-- Model of `generate_estimate` (graph.py lines 207-225): inside the `try`
block the three attributes `files`, `ai_estimate` and `requested_changes` are
read from the run state and handed to the BAML estimation call; any exception
is re-raised as `BAML GenerateProjectEstimate failed: ...`. -/
def generate_estimate (env : Env) (st : State) : Except String ConstructionProjectData :=
  let attempt : Except String ConstructionProjectData :=
    match getStateAttr st "files" with
    | .error e => .error e
    | .ok fv =>
      match getStateAttr st "ai_estimate" with
      | .error e => .error e
      | .ok ev =>
        match getStateAttr st "requested_changes" with
        | .error e => .error e
        | .ok rv => env.generateProjectEstimate fv ev rv
  match attempt with
  | .ok r => .ok r
  | .error e => .error ("BAML GenerateProjectEstimate failed: " ++ e)

/-- Hundredths value of a rational, rounded half to even (the rounding used by
Python `format(x, ".2f")` on the exact value), computed on the reduced
numerator and denominator so it evaluates by kernel reduction. -/
def scaledHundredths (q : ℚ) : ℤ :=
  let n : ℤ := q.num * 100
  let d : ℤ := (q.den : ℤ)
  let fl : ℤ := n.fdiv d
  let r : ℤ := n - fl * d
  if 2 * r < d then fl
  else if d < 2 * r then fl + 1
  else if fl % 2 = 0 then fl else fl + 1

/-- Two-digit zero padding of the fractional part. -/
def pad2 (n : Nat) : String :=
  if n < 10 then "0" ++ toString n else toString n

/-- Model of the Python f-string `f"{x:.2f}"` on an exact rational value. -/
def pyFormatF2 (q : ℚ) : String :=
  let scaled := scaledHundredths q
  if scaled < 0 then
    "-" ++ toString ((-scaled).toNat / 100) ++ "." ++ pad2 ((-scaled).toNat % 100)
  else
    toString (scaled.toNat / 100) ++ "." ++ pad2 (scaled.toNat % 100)

/-- The `KeyFrame` record of `baml_client.types` (a key moment of the video):
an optional suggested filename, a timestamp in seconds, and a description. -/
structure KeyFrame where
  filename : Option String := none
  timestamp_s : ℚ
  description : String
deriving DecidableEq, Repr

/-- The `VideoAnalysis` record returned by the analysis model: a textual
description plus the ordered key moments. -/
structure VideoAnalysis where
  description : String := ""
  key_frames : List KeyFrame := []
deriving DecidableEq, Repr

/-- A handle to a file uploaded to the Gemini Files API. -/
structure GeminiFileRef where
  name : String := ""
  uri : String := ""
deriving DecidableEq, Repr

/-- Outcome of one ffmpeg invocation: exit code, stdout bytes, stderr bytes. -/
structure FfmpegResult where
  returncode : Int
  stdout : List Nat := []
  stderr : List Nat := []
deriving DecidableEq, Repr

/-- The `VideoState` consumed by `video_graph.py` (imported from `.state`);
fields are those read and written by the two nodes: the source descriptor,
project / parent identifiers, the transient local path, the analysis, and the
extracted frames. -/
structure VideoState where
  video_file : InputFile
  project_id : String := ""
  parent_file_id : String := ""
  local_video_path : Option String := none
  analysis : Option VideoAnalysis := none
  extracted_frames : List InputFile := []
deriving DecidableEq, Repr

/-- Oracle environment of the video pipeline: the per-run temporary path, the
HTTP download, the Gemini upload and BAML analysis, the Supabase configuration
read from the environment, the fallible `create_async_client` constructor
(its handle is abstracted to `Unit`; uploads are modelled by `supabaseUpload`),
the ffmpeg subprocess and the Supabase upload. -/
structure VEnv where
  tempPath : String
  downloadFile : String → Except String (List Nat)
  uploadVideoToGemini : String → Except String GeminiFileRef
  analyzeVideoBaml : GeminiFileRef → String → Option String → Except String VideoAnalysis
  supabase_url : Option String := none
  supabase_key : Option String := none
  supabase_bucket : Option String := none
  createClient : String → String → Except String Unit
  ffmpeg : String → ℚ → Except String FfmpegResult
  supabaseUpload : String → List Nat → Except String Unit

/-- Model of `_cleanup_temp_file` (video_graph.py lines 42-53) acting on the
set of existing paths: a falsy or missing path is silently ignored, an existing
path is removed; the function never fails. -/
def cleanup_temp_file (path : Option String) (fs : List String) : List String :=
  match path with
  | none => fs
  | some p => if p = "" then fs else if p ∈ fs then fs.filter (fun q => q != p) else fs

/-- Derived frame filename (video_graph.py line 132):
`key_frame.filename or f"frame_ts_{key_frame.timestamp_s:.2f}.png"`, where the
Python `or` also discards an empty suggested filename. -/
def frameFilename (kf : KeyFrame) : String :=
  match kf.filename with
  | some s => if s = "" then "frame_ts_" ++ pyFormatF2 kf.timestamp_s ++ ".png" else s
  | none => "frame_ts_" ++ pyFormatF2 kf.timestamp_s ++ ".png"

/-- Model of `_extract_key_frames_locally` (video_graph.py lines 105-165):
run ffmpeg for each key moment in order; a non-zero exit or empty stdout skips
that moment and continues; a raised exception aborts. -/
def extract_key_frames_locally (env : VEnv) (local_video_path : String) :
    List KeyFrame → Except String (List (KeyFrame × List Nat × String))
  | [] => .ok []
  | kf :: rest =>
    match env.ffmpeg local_video_path kf.timestamp_s with
    | .error e => .error e
    | .ok r =>
      match extract_key_frames_locally env local_video_path rest with
      | .error e => .error e
      | .ok tail =>
        if r.returncode ≠ 0 then .ok tail
        else if r.stdout = [] then .ok tail
        else .ok ((kf, r.stdout, frameFilename kf) :: tail)

/-- Outcome of the decoder for one key moment: the PNG bytes when it exits 0
with non-empty stdout, `none` otherwise. -/
def ffmpegOutcome (env : VEnv) (local_video_path : String) (kf : KeyFrame) :
    Option (List Nat) :=
  match env.ffmpeg local_video_path kf.timestamp_s with
  | .error _ => none
  | .ok r => if r.returncode = 0 ∧ r.stdout ≠ [] then some r.stdout else none

/-- Model of `analyze_video_node` (video_graph.py lines 171-197), threading the
filesystem: a missing source URL fails after cleaning the prior path; then the
video is downloaded to the fresh temporary path, uploaded to Gemini and
analyzed, with cleanup of the temporary path on every failure; on success the
path is kept for the next node. -/
def analyze_video_node (env : VEnv) (st : VideoState) (fs : List String) :
    Except String (VideoAnalysis × String) × List String :=
  if truthyOptStr st.video_file.download_url = false then
    (.error "Video file download_url is missing.", cleanup_temp_file st.local_video_path fs)
  else
    let p := env.tempPath
    match env.downloadFile (st.video_file.download_url.getD "") with
    | .error e => (.error e, cleanup_temp_file (some p) fs)
    | .ok _ =>
      let fs1 := p :: fs
      match env.uploadVideoToGemini p with
      | .error e => (.error e, cleanup_temp_file (some p) fs1)
      | .ok gf =>
        match env.analyzeVideoBaml gf st.video_file.name st.video_file.description with
        | .error e => (.error e, cleanup_temp_file (some p) fs1)
        | .ok va => (.ok (va, p), fs1)

/-- True when any of the three Supabase environment variables is unset or empty
(the check of video_graph.py line 212). -/
def supabaseConfigMissing (env : VEnv) : Bool :=
  !(truthyOptStr env.supabase_url && truthyOptStr env.supabase_key
    && truthyOptStr env.supabase_bucket)

/-- The upload loop of `extract_frames_node` (video_graph.py lines 238-264):
upload each extracted frame to its storage path and build the resulting
`InputFile`; the first failing upload aborts. -/
def uploadFramesLoop (env : VEnv) (project_id parent_file_id : String) :
    List (KeyFrame × List Nat × String) → Except String (List InputFile)
  | [] => .ok []
  | (kf, frame_bytes, frame_filename) :: rest =>
    let storage_path := project_id ++ "/frames/" ++ parent_file_id ++ "/" ++ frame_filename
    match env.supabaseUpload storage_path frame_bytes with
    | .error e => .error e
    | .ok _ =>
      match uploadFramesLoop env project_id parent_file_id rest with
      | .error e => .error e
      | .ok tail =>
        .ok ({ name := frame_filename, type := "image/png",
               description := some kf.description,
               download_url := some storage_path } :: tail)

/-- Model of `extract_frames_node` (video_graph.py lines 200-270), threading
the filesystem: no key moments returns an empty frame list after cleanup; a
missing or falsy local path fails without cleanup; missing Supabase
configuration fails after cleanup; then `create_async_client` (line 220) runs
outside any try/except, so its failure propagates with NO cleanup; otherwise
frames are extracted and uploaded, with cleanup on every exit. -/
def extract_frames_node (env : VEnv) (st : VideoState) (fs : List String) :
    Except String (List InputFile) × List String :=
  match st.analysis with
  | none => (.ok [], cleanup_temp_file st.local_video_path fs)
  | some a =>
    if a.key_frames = [] then (.ok [], cleanup_temp_file st.local_video_path fs)
    else
      match st.local_video_path with
      | none =>
        (.error "Local video path not found or video not downloaded from previous step.", fs)
      | some p =>
        if p = "" ∨ p ∉ fs then
          (.error "Local video path not found or video not downloaded from previous step.", fs)
        else if supabaseConfigMissing env then
          (.error "Supabase configuration missing for frame upload.",
            cleanup_temp_file (some p) fs)
        else
          match env.createClient (env.supabase_url.getD "") (env.supabase_key.getD "") with
          | .error e => (.error e, fs)
          | .ok _ =>
            match extract_key_frames_locally env p a.key_frames with
            | .error e => (.error e, cleanup_temp_file (some p) fs)
            | .ok frames =>
              match uploadFramesLoop env st.project_id st.parent_file_id frames with
              | .error e => (.error e, cleanup_temp_file (some p) fs)
              | .ok infiles => (.ok infiles, cleanup_temp_file (some p) fs)

/-- The compiled video graph (video_graph.py lines 277-289): `analyze_video`
followed by `extract_frames`, the node output dict merged into the run state
between the stages. -/
def videoRun (env : VEnv) (st : VideoState) (fs : List String) :
    Except String (List InputFile) × List String :=
  match analyze_video_node env st fs with
  | (.error e, fs1) => (.error e, fs1)
  | (.ok (va, p), fs1) =>
    extract_frames_node env
      { st with analysis := some va, local_video_path := some p } fs1

/-- Environment used by concrete witnesses of the document pipeline: a
single-URL HTTP transport answering 200 with body `[5]`, simple codecs, a
two-page PDF renderer and an always-succeeding transcription. -/
def witEnv : Env :=
  { http := fun _ => .ok { status := 200, contentType := some "image/png", body := [5] },
    bodyText := fun _ => "body",
    decodeUtf8 := fun _ => some "hello",
    b64encode := fun _ => "QQ==",
    convertPdf := fun _ => .ok [[1], [2]],
    transcribe := fun _ => .ok "the transcript",
    generateProjectEstimate := fun _ _ _ => .error "unused" }

/-- Environment whose HTTP transport answers status 201 (a 2xx status). -/
def env201 : Env :=
  { http := fun _ => .ok { status := 201, contentType := none, body := [] },
    bodyText := fun _ => "",
    decodeUtf8 := fun _ => none,
    b64encode := fun _ => "",
    convertPdf := fun _ => .error "",
    transcribe := fun _ => .error "",
    generateProjectEstimate := fun _ _ _ => .error "" }

/-- Environment whose HTTP transport answers status 404. -/
def env404 : Env :=
  { http := fun _ => .ok { status := 404, contentType := none, body := [110] },
    bodyText := fun _ => "not found",
    decodeUtf8 := fun _ => none,
    b64encode := fun _ => "",
    convertPdf := fun _ => .error "",
    transcribe := fun _ => .error "",
    generateProjectEstimate := fun _ _ _ => .error "" }

/-- Character class `[A-Za-z0-9 ._]` named by the claim about sanitized names. -/
def allowedSpecChar (c : Char) : Bool :=
  (decide ('A' ≤ c) && decide (c ≤ 'Z')) || (decide ('a' ≤ c) && decide (c ≤ 'z'))
    || (decide ('0' ≤ c) && decide (c ≤ '9')) || c == ' ' || c == '.' || c == '_'

/-- Environment whose PDF renderer yields one non-empty page. -/
def envOnePage : Env :=
  { http := fun _ => .error "",
    bodyText := fun _ => "",
    decodeUtf8 := fun _ => none,
    b64encode := fun _ => "QQ==",
    convertPdf := fun _ => .ok [[7]],
    transcribe := fun _ => .error "",
    generateProjectEstimate := fun _ _ _ => .error "" }

/-- Image descriptor used by the C1 witness. -/
def bathFile : InputFile :=
  { name := "bath.png", type := "image/png", description := some "bathroom photo",
    download_url := some "http://u/img" }

/-- Video-pipeline environment used by concrete witnesses: a fresh temp path,
successful download / upload / analysis with one key moment, a decoder that
succeeds at timestamp 1 and fails (exit 1) elsewhere, and configured storage. -/
def vWitEnv : VEnv :=
  { tempPath := "/tmp/videos/run1_clip.mp4",
    downloadFile := fun _ => .ok [3],
    uploadVideoToGemini := fun _ => .ok { name := "files/x", uri := "gs://x" },
    analyzeVideoBaml := fun _ _ _ => .ok
      { description := "walkthrough",
        key_frames := [{ filename := some "shot.png", timestamp_s := 1, description := "k" }] },
    supabase_url := some "https://sb", supabase_key := some "key",
    supabase_bucket := some "frames",
    createClient := fun _ _ => .ok (),
    ffmpeg := fun _ ts => if ts = 1 then .ok { returncode := 0, stdout := [7], stderr := [] }
      else .ok { returncode := 1, stdout := [], stderr := [9] },
    supabaseUpload := fun _ _ => .ok () }

/-- Video descriptor state used by concrete witnesses. -/
def vWitState : VideoState :=
  { video_file :=
      { name := "clip.mp4", type := "video/mp4",
        description := some "site video", download_url := some "http://u/clip" },
    project_id := "p1", parent_file_id := "f1" }

/-- Environment with no storage configuration and an analysis that found no
key moments; used by the C10 witness. -/
def noConfigVEnv : VEnv :=
  { tempPath := "/tmp/videos/run2_clip.mp4",
    downloadFile := fun _ => .ok [3],
    uploadVideoToGemini := fun _ => .ok { name := "files/y", uri := "gs://y" },
    analyzeVideoBaml := fun _ _ _ => .ok { description := "walkthrough", key_frames := [] },
    supabase_url := none, supabase_key := none, supabase_bucket := none,
    createClient := fun _ _ => .error "unused",
    ffmpeg := fun _ _ => .error "unused",
    supabaseUpload := fun _ _ => .error "unused" }

/-- First key moment of the C6 witness (succeeds, has a suggested filename). -/
def kfShot : KeyFrame := { filename := some "shot.png", timestamp_s := 1, description := "k1" }

/-- Second key moment of the C6 witness (the decoder exits non-zero on it). -/
def kfMiss : KeyFrame := { filename := none, timestamp_s := 2, description := "k2" }

/-- Key moment whose suggested filename is present but empty. -/
def kfEmptyName : KeyFrame := { filename := some "", timestamp_s := 1, description := "k" }

/-- Environment whose Supabase URL and key are truthy but malformed, so the
configuration check passes and `create_async_client` raises; used by the C5
counterexample. -/
def leakVEnv : VEnv :=
  { tempPath := "/tmp/videos/run3_clip.mp4",
    downloadFile := fun _ => .ok [3],
    uploadVideoToGemini := fun _ => .ok { name := "files/z", uri := "gs://z" },
    analyzeVideoBaml := fun _ _ _ => .ok
      { description := "walkthrough",
        key_frames := [{ filename := some "shot.png", timestamp_s := 1, description := "k" }] },
    supabase_url := some "not-a-url", supabase_key := some "bad key",
    supabase_bucket := some "frames",
    createClient := fun _ _ => .error "SupabaseException: Invalid URL",
    ffmpeg := fun _ _ => .error "unused",
    supabaseUpload := fun _ _ => .error "unused" }

theorem startsList_head {c : Char} {cs t : List Char}
    (h : startsList (c :: cs) t = true) :
    ∃ u, t = c :: u ∧ startsList cs u = true := by
  cases t with
  | nil => simp [startsList] at h
  | cons e u =>
    simp only [startsList, Bool.and_eq_true, beq_iff_eq] at h
    exact ⟨u, by rw [h.1], h.2⟩

theorem pyStartsWith_head {s p : String} {c : Char} {cs : List Char}
    (h : pyStartsWith s p = true) (hp : p.data = c :: cs) :
    ∃ u, s.data = c :: u := by
  unfold pyStartsWith at h
  rw [hp] at h
  obtain ⟨u, hu, -⟩ := startsList_head h
  exact ⟨u, hu⟩

theorem pyStartsWith_false_of_head {s p q : String} {c d : Char}
    {cs ds : List Char} (hp : p.data = c :: cs) (hq : q.data = d :: ds)
    (hne : c ≠ d) (h : pyStartsWith s p = true) :
    pyStartsWith s q = false := by
  cases hb : pyStartsWith s q with
  | false => rfl
  | true =>
    obtain ⟨u, hu⟩ := pyStartsWith_head h hp
    obtain ⟨v, hv⟩ := pyStartsWith_head hb hq
    rw [hu] at hv
    exact ((hne (List.cons.inj hv).1).elim)

theorem startsList_head2 {c d : Char} {cs t : List Char}
    (h : startsList (c :: d :: cs) t = true) :
    ∃ u, t = c :: d :: u := by
  obtain ⟨u, hu, h2⟩ := startsList_head h
  obtain ⟨v, hv, -⟩ := startsList_head h2
  exact ⟨v, by rw [hu, hv]⟩

theorem pyStartsWith_false_of_two {s p q : String} {c d g : Char}
    {cs ds : List Char} (hp : p.data = c :: d :: cs) (hq : q.data = c :: g :: ds)
    (hne : d ≠ g) (h : pyStartsWith s p = true) :
    pyStartsWith s q = false := by
  cases hb : pyStartsWith s q with
  | false => rfl
  | true =>
    unfold pyStartsWith at h hb
    rw [hp] at h
    rw [hq] at hb
    obtain ⟨u, hu⟩ := startsList_head2 h
    obtain ⟨v, hv⟩ := startsList_head2 hb
    rw [hu] at hv
    exact ((hne (List.cons.inj (List.cons.inj hv).2).1).elim)

theorem download_ok_bytes {env : Env} {url : String} {resp : HttpResponse}
    (hhttp : env.http url = .ok resp) (h200 : resp.status = 200)
    (m : Option String) :
    download_from_url env url true m = .ok (.bytes resp.body) := by
  unfold download_from_url
  rw [hhttp]
  simp [h200]

theorem download_ok_text {env : Env} {url : String} {resp : HttpResponse}
    (hhttp : env.http url = .ok resp) (h200 : resp.status = 200)
    (m : Option String) :
    download_from_url env url false m = .ok (.str (textOf env resp.body)) := by
  unfold download_from_url
  rw [hhttp]
  simp [h200]

/-- C3: a descriptor whose `sourceUrl` is absent always fails normalization
with the `has no download_url` fatal error, whatever the declared MIME type
(video and unsupported types included), and no inline content is processed:
the step returns an error, not a file list. -/
theorem no_download_url_always_fatal (env : Env) (f : InputFile)
    (h : f.download_url = none) :
    process_files env [f]
      = .error ("File " ++ f.name ++ " has no download_url, cannot process.") := by
  simp [process_files, processOneFile, h, truthyOptStr]

theorem no_download_url_always_fatal_witness :
    process_files
      { http := fun _ => .error "", bodyText := fun _ => "",
        decodeUtf8 := fun _ => none, b64encode := fun _ => "",
        convertPdf := fun _ => .error "", transcribe := fun _ => .error "",
        generateProjectEstimate := fun _ _ _ => .error "" }
      [{ name := "clip.mp4", type := "video/mp4" }]
      = .error "File clip.mp4 has no download_url, cannot process." :=
  (no_download_url_always_fatal _ { name := "clip.mp4", type := "video/mp4" } rfl).trans
    (congrArg Except.error (by decide))

/-- C4: if one descriptor in the list fails to process (its processing raises),
and the descriptors before it succeed, the whole `process_files` step fails
with exactly that error; no partial canonical-file list is returned. -/
theorem strict_fail_no_partial (env : Env) (xs : List InputFile) (f : InputFile)
    (ys : List InputFile) (e : String)
    (hf : processOneFile env f = .error e)
    (hxs : ∀ x ∈ xs, ∃ r, processOneFile env x = .ok r) :
    process_files env (xs ++ f :: ys) = .error e := by
  induction xs with
  | nil =>
    simp only [List.nil_append, process_files, hf]
  | cons x xs ih =>
    obtain ⟨r, hr⟩ := hxs x (List.mem_cons_self x xs)
    have ih2 := ih (fun y hy => hxs y (List.mem_cons_of_mem x hy))
    simp only [List.cons_append, process_files, hr]
    rw [List.append_eq, ih2]

theorem strict_fail_no_partial_witness :
    process_files witEnv
      [{ name := "notes.txt", type := "text/plain", download_url := some "http://u/notes" },
       { name := "broken.png", type := "image/png" }]
      = .error "File broken.png has no download_url, cannot process." := by
  have h := strict_fail_no_partial witEnv
    [{ name := "notes.txt", type := "text/plain", download_url := some "http://u/notes" }]
    { name := "broken.png", type := "image/png" } [] _ rfl
    (by
      intro x hx
      rw [List.mem_singleton] at hx
      subst hx
      exact ⟨_, rfl⟩)
  exact h.trans (congrArg Except.error (by decide))

/-- C7 (counterexample): the claim says every 2xx response is accepted, but a
response with status 201 — a 2xx status — makes `download_from_url` raise,
because the code compares against the single status 200. -/
theorem download_rejects_2xx_counterexample :
    (∃ e, download_from_url env201 "http://files.example/a.png" true none = .error e)
    ∧ 200 ≤ 201 ∧ 201 < 300 :=
  ⟨⟨_, rfl⟩, by decide, by decide⟩

/-- C7 (amended): once a response is received, the fetch fails exactly when the
status is not 200 (any other status, 2xx included, is rejected), and on failure
the error carries the status code and the response body text. -/
theorem download_fails_iff_not_200 (env : Env) (url : String) (as_bytes : Bool)
    (m : Option String) (resp : HttpResponse)
    (hhttp : env.http url = .ok resp) :
    ((∃ e, download_from_url env url as_bytes m = .error e) ↔ resp.status ≠ 200)
    ∧ (resp.status ≠ 200 →
        download_from_url env url as_bytes m
          = .error ("Failed to download from URL " ++ url ++ ": "
              ++ toString resp.status ++ " " ++ env.bodyText resp.body)) := by
  unfold download_from_url
  rw [hhttp]
  by_cases hs : resp.status = 200
  · constructor
    · constructor
      · rintro ⟨e, he⟩
        simp only [hs] at he
        cases as_bytes <;> simp at he
      · intro h
        exact absurd hs h
    · intro h
      exact absurd hs h
  · refine ⟨⟨fun _ => hs, fun _ => ?_⟩, fun _ => ?_⟩
    · exact ⟨"Failed to download from URL " ++ url ++ ": "
        ++ toString resp.status ++ " " ++ env.bodyText resp.body, by simp [hs]⟩
    · simp [hs]

theorem download_fails_iff_not_200_witness :
    ((∃ e, download_from_url env404 "http://u" true none = .error e) ↔ (404 : Nat) ≠ 200)
    ∧ ((404 : Nat) ≠ 200 →
        download_from_url env404 "http://u" true none
          = .error ("Failed to download from URL " ++ "http://u" ++ ": "
              ++ toString (404 : Nat) ++ " " ++ env404.bodyText [110])) :=
  download_fails_iff_not_200 env404 "http://u" true none
    { status := 404, contentType := none, body := [110] } rfl

/-- C8 (counterexample): sanitizing the base name of `"Plans (v2)/Final.pdf"`
yields `"Plans _v2__Final"` — the parentheses and the slash each become an
underscore, not a space — so the claimed result `"Plans v2 Final"` is wrong. -/
theorem sanitize_base_name_counterexample :
    safeBaseNameOf "Plans (v2)/Final.pdf" = "Plans _v2__Final"
    ∧ safeBaseNameOf "Plans (v2)/Final.pdf" ≠ "Plans v2 Final" := by
  constructor <;> decide

/-- C8 (amended): sanitizing the base name of `"Plans (v2)/Final.pdf"` yields a
name using only characters in `[A-Za-z0-9 ._]`, namely `"Plans _v2__Final"`,
so the first derived page file is named `"Plans _v2__Final_page_1.png"`. -/
theorem sanitize_base_name_amended :
    safeBaseNameOf "Plans (v2)/Final.pdf" = "Plans _v2__Final"
    ∧ (safeBaseNameOf "Plans (v2)/Final.pdf").data.all allowedSpecChar = true
    ∧ ∃ out, process_pdf_to_image_input_files_sync envOnePage [9] "Plans (v2)/Final.pdf" none
        = .ok out
      ∧ out.map (fun f => f.name) = ["Plans _v2__Final_page_1.png"] :=
  ⟨by decide, by decide, ⟨_, rfl, by decide⟩⟩

/-- C9 (code bug): `generate_estimate` reads `state.requested_changes`, but the
`State` dataclass of `state.py` has no such field, so every estimation run
raises `AttributeError`, re-wrapped by the node's `except` clause — the stage
can never accept the optional inputs the claim (and graph.py itself) expects. -/
theorem generate_estimate_missing_attribute (env : Env) (st : State) :
    generate_estimate env st
      = .error ("BAML GenerateProjectEstimate failed: "
          ++ "AttributeError: State object has no attribute requested_changes") := rfl

theorem pdfPageFiles_spec (env : Env) (safe descBase : String)
    (pages : List (List Nat)) :
    ∀ n, (∀ b ∈ pages, b ≠ []) →
      (pdfPageFiles env safe descBase pages n).length = pages.length
      ∧ ∀ i b, pages.get? i = some b →
          (pdfPageFiles env safe descBase pages n).get? i
            = some (mkPdfPageFile env safe descBase (n + i) b) := by
  induction pages with
  | nil =>
    intro n _
    exact ⟨rfl, by intro i b h; simp at h⟩
  | cons b rest ih =>
    intro n h
    have hb : b ≠ [] := h b (List.mem_cons_self b rest)
    have ihr := ih (n + 1) (fun x hx => h x (List.mem_cons_of_mem b hx))
    simp only [pdfPageFiles, if_neg hb]
    refine ⟨by simp [ihr.1], ?_⟩
    intro i c hc
    cases i with
    | zero =>
      simp only [List.get?] at hc
      cases hc
      simp [List.get?]
    | succ j =>
      simp only [List.get?] at hc ⊢
      have hj := ihr.2 j c hc
      have harith : n + 1 + j = n + (j + 1) := by omega
      rw [harith] at hj
      exact hj

/-- C2: if rendering a PDF yields the (non-empty-byte) pages `pages`, the sync
converter returns exactly one canonical file per page, in page order, named
with the 1-based page suffix, carrying PNG image content and no download URL;
and if rendering yields zero pages it raises the fatal error naming the source
file. -/
theorem pdf_rasterization_pages (env : Env) (pdf_bytes : List Nat)
    (name : String) (desc : Option String) (pages : List (List Nat))
    (hconv : env.convertPdf pdf_bytes = .ok pages)
    (hbytes : ∀ b ∈ pages, b ≠ []) :
    (pages = [] →
      process_pdf_to_image_input_files_sync env pdf_bytes name desc
        = .error ("PDF file " ++ name ++ " converted to zero pages/images."))
    ∧ (pages ≠ [] → ∃ out,
        process_pdf_to_image_input_files_sync env pdf_bytes name desc = .ok out
        ∧ out.length = pages.length
        ∧ ∀ i b, pages.get? i = some b →
            out.get? i = some (mkPdfPageFile env (safeBaseNameOf name)
              (pdfDescBase desc name) (i + 1) b))
    ∧ (∀ pn b,
        (mkPdfPageFile env (safeBaseNameOf name) (pdfDescBase desc name) pn b).name
          = safeBaseNameOf name ++ "_page_" ++ toString pn ++ ".png"
        ∧ (mkPdfPageFile env (safeBaseNameOf name) (pdfDescBase desc name) pn b).download_url
          = none
        ∧ (mkPdfPageFile env (safeBaseNameOf name) (pdfDescBase desc name) pn b).image_data
          = some { media_type := "image/png", base64 := env.b64encode b }
        ∧ contentSlotCount
            (mkPdfPageFile env (safeBaseNameOf name) (pdfDescBase desc name) pn b) = 1) := by
  refine ⟨?_, ?_, ?_⟩
  · intro hnil
    subst hnil
    simp [process_pdf_to_image_input_files_sync, hconv]
  · intro hne
    have hspec := pdfPageFiles_spec env (safeBaseNameOf name) (pdfDescBase desc name) pages 1 hbytes
    refine ⟨_, ?_, hspec.1, ?_⟩
    · simp [process_pdf_to_image_input_files_sync, hconv, hne]
    · intro i b hc
      have hj := hspec.2 i b hc
      have harith : 1 + i = i + 1 := by omega
      rw [harith] at hj
      exact hj
  · intro pn b
    exact ⟨rfl, rfl, rfl, by simp [mkPdfPageFile, contentSlotCount]⟩

theorem pdf_rasterization_pages_witness :
    ∃ out, process_pdf_to_image_input_files_sync witEnv [9] "plans.pdf" none = .ok out
      ∧ out.length = ([[1], [2]] : List (List Nat)).length
      ∧ ∀ i b, ([[1], [2]] : List (List Nat)).get? i = some b →
          out.get? i = some (mkPdfPageFile witEnv (safeBaseNameOf "plans.pdf")
            (pdfDescBase none "plans.pdf") (i + 1) b) :=
  (pdf_rasterization_pages witEnv [9] "plans.pdf" none [[1], [2]] rfl
    (by decide)).2.1 (by decide)

/-- C1: a descriptor with a (non-empty) source URL whose declared MIME type is
`image/*`, `audio/*` or `text/*` normalizes, when its fetch (and, for audio,
its transcription) succeeds, to exactly one canonical file with exactly one
populated content slot, per the category rules: image keeps binary image
content with the description copied through; audio puts the transcript in the
text slot, clears the audio slot and retypes the file to `text/plain`; text
stores the downloaded text. -/
theorem single_content_normalization (env : Env) (f : InputFile) (u : String)
    (resp : HttpResponse)
    (hu : f.download_url = some u) (hune : u ≠ "")
    (hcat : pyStartsWith f.type "image/" = true ∨ pyStartsWith f.type "audio/" = true
      ∨ pyStartsWith f.type "text/" = true)
    (hhttp : env.http u = .ok resp) (h200 : resp.status = 200)
    (htrans : ∀ a, ∃ t, env.transcribe a = .ok t) :
    ∃ out, process_files env [f] = .ok [out] ∧ contentSlotCount out = 1
      ∧ (pyStartsWith f.type "image/" = true →
          out.image_data = some { media_type := f.type, base64 := env.b64encode resp.body }
          ∧ out.content = none ∧ out.audio_data = none
          ∧ out.description = f.description ∧ out.type = f.type ∧ out.name = f.name
          ∧ out.download_url = f.download_url)
      ∧ (pyStartsWith f.type "audio/" = true →
          (∃ t, env.transcribe (audioPreFile env f resp.body) = .ok t
            ∧ out.content = some t)
          ∧ out.audio_data = none ∧ out.image_data = none
          ∧ out.type = "text/plain" ∧ out.description = f.description
          ∧ out.name = f.name)
      ∧ (pyStartsWith f.type "text/" = true →
          out.content = some (textOf env resp.body)
          ∧ out.image_data = none ∧ out.audio_data = none
          ∧ out.type = f.type ∧ out.description = f.description
          ∧ out.name = f.name) := by
  have hturl : truthyOptStr (some u) = true := by
    simp [truthyOptStr, hune]
  rcases hcat with himg | haud | htxt
  · have hpdf : pyStartsWith f.type "application/pdf" = false :=
      pyStartsWith_false_of_head rfl rfl (by decide) himg
    have haudF : pyStartsWith f.type "audio/" = false :=
      pyStartsWith_false_of_head rfl rfl (by decide) himg
    have htxtF : pyStartsWith f.type "text/" = false :=
      pyStartsWith_false_of_head rfl rfl (by decide) himg
    have hdl := download_ok_bytes hhttp h200 (some "image/")
    refine ⟨{ name := f.name, type := f.type, description := f.description,
              download_url := f.download_url, content := none,
              image_data := some { media_type := f.type, base64 := env.b64encode resp.body },
              audio_data := none }, ?_, ?_, ?_, ?_, ?_⟩
    · simp [process_files, processOneFile, hturl, hu, hpdf, himg, hdl]
    · simp [contentSlotCount]
    · intro _
      exact ⟨rfl, rfl, rfl, rfl, rfl, rfl, rfl⟩
    · intro h
      rw [haudF] at h
      exact absurd h (by simp)
    · intro h
      rw [htxtF] at h
      exact absurd h (by simp)
  · have hpdf : pyStartsWith f.type "application/pdf" = false :=
      pyStartsWith_false_of_two rfl rfl (by decide) haud
    have himgF : pyStartsWith f.type "image/" = false :=
      pyStartsWith_false_of_head rfl rfl (by decide) haud
    have htxtF : pyStartsWith f.type "text/" = false :=
      pyStartsWith_false_of_head rfl rfl (by decide) haud
    have hdl := download_ok_bytes hhttp h200 (some "audio/")
    obtain ⟨t, ht⟩ := htrans (audioPreFile env f resp.body)
    have ht2 : env.transcribe (audioPreFile env f resp.body) = .ok t := ht
    simp only [audioPreFile] at ht2
    rw [hu] at ht2
    refine ⟨{ name := f.name, type := "text/plain", description := f.description,
              download_url := f.download_url, content := some t,
              image_data := none, audio_data := none }, ?_, ?_, ?_, ?_, ?_⟩
    · simp [process_files, processOneFile, hturl, hu, hpdf, himgF, haud, hdl,
        audioPreFile, ht2]
    · simp [contentSlotCount]
    · intro h
      rw [himgF] at h
      exact absurd h (by simp)
    · intro _
      exact ⟨⟨t, ht, rfl⟩, rfl, rfl, rfl, rfl, rfl⟩
    · intro h
      rw [htxtF] at h
      exact absurd h (by simp)
  · have hpdf : pyStartsWith f.type "application/pdf" = false :=
      pyStartsWith_false_of_head rfl rfl (by decide) htxt
    have himgF : pyStartsWith f.type "image/" = false :=
      pyStartsWith_false_of_head rfl rfl (by decide) htxt
    have haudF : pyStartsWith f.type "audio/" = false :=
      pyStartsWith_false_of_head rfl rfl (by decide) htxt
    have hdl := download_ok_text hhttp h200 (some "text/")
    refine ⟨{ name := f.name, type := f.type, description := f.description,
              download_url := f.download_url, content := some (textOf env resp.body),
              image_data := none, audio_data := none }, ?_, ?_, ?_, ?_, ?_⟩
    · simp [process_files, processOneFile, hturl, hu, hpdf, himgF, haudF, htxt, hdl]
    · simp [contentSlotCount]
    · intro h
      rw [himgF] at h
      exact absurd h (by simp)
    · intro h
      rw [haudF] at h
      exact absurd h (by simp)
    · intro _
      exact ⟨rfl, rfl, rfl, rfl, rfl, rfl⟩

theorem single_content_normalization_witness :
    ∃ out, process_files witEnv [bathFile] = .ok [out] ∧ contentSlotCount out = 1
      ∧ (pyStartsWith bathFile.type "image/" = true →
          out.image_data = some { media_type := bathFile.type, base64 := witEnv.b64encode [5] }
          ∧ out.content = none ∧ out.audio_data = none
          ∧ out.description = bathFile.description ∧ out.type = bathFile.type
          ∧ out.name = bathFile.name ∧ out.download_url = bathFile.download_url)
      ∧ (pyStartsWith bathFile.type "audio/" = true →
          (∃ t, witEnv.transcribe (audioPreFile witEnv bathFile [5]) = .ok t
            ∧ out.content = some t)
          ∧ out.audio_data = none ∧ out.image_data = none
          ∧ out.type = "text/plain" ∧ out.description = bathFile.description
          ∧ out.name = bathFile.name)
      ∧ (pyStartsWith bathFile.type "text/" = true →
          out.content = some (textOf witEnv [5])
          ∧ out.image_data = none ∧ out.audio_data = none
          ∧ out.type = bathFile.type ∧ out.description = bathFile.description
          ∧ out.name = bathFile.name) :=
  single_content_normalization witEnv bathFile "http://u/img"
    { status := 200, contentType := some "image/png", body := [5] } rfl (by decide)
    (Or.inl (by decide)) rfl rfl (fun _ => ⟨"the transcript", rfl⟩)

theorem not_mem_cleanup {q : String} {path : Option String} {fs : List String}
    (h : q ∉ fs) : q ∉ cleanup_temp_file path fs := by
  cases path with
  | none => exact h
  | some p =>
    simp only [cleanup_temp_file]
    split
    · exact h
    · split
      · intro hmem
        exact h (List.mem_of_mem_filter hmem)
      · exact h

theorem self_not_mem_cleanup {p : String} (hne : p ≠ "") (fs : List String) :
    p ∉ cleanup_temp_file (some p) fs := by
  simp only [cleanup_temp_file, if_neg hne]
  split
  · simp [List.mem_filter]
  · assumption

theorem cleanup_missing {p : String} {fs : List String} (h : p ∉ fs) :
    cleanup_temp_file (some p) fs = fs := by
  simp only [cleanup_temp_file]
  by_cases hp : p = ""
  · rw [if_pos hp]
  · rw [if_neg hp, if_neg h]

theorem cleanup_idempotent (p : String) (fs : List String) :
    cleanup_temp_file (some p) (cleanup_temp_file (some p) fs)
      = cleanup_temp_file (some p) fs := by
  by_cases hp : p = ""
  · simp [cleanup_temp_file, hp]
  · exact cleanup_missing (self_not_mem_cleanup hp fs)

theorem analyze_video_node_cases (env : VEnv) (st : VideoState) (fs : List String)
    (hfresh : env.tempPath ∉ fs) (hne : env.tempPath ≠ "") :
    (∃ e fs2, analyze_video_node env st fs = (.error e, fs2) ∧ env.tempPath ∉ fs2)
    ∨ (∃ va, analyze_video_node env st fs = (.ok (va, env.tempPath), env.tempPath :: fs)) := by
  simp only [analyze_video_node]
  split
  · exact Or.inl ⟨_, _, rfl, not_mem_cleanup hfresh⟩
  · split
    · exact Or.inl ⟨_, _, rfl, not_mem_cleanup hfresh⟩
    · split
      · exact Or.inl ⟨_, _, rfl, self_not_mem_cleanup hne _⟩
      · split
        · exact Or.inl ⟨_, _, rfl, self_not_mem_cleanup hne _⟩
        · exact Or.inr ⟨_, rfl⟩

theorem extract_frames_node_cleans (env : VEnv) (st : VideoState) (fs : List String)
    (p : String) (hpath : st.local_video_path = some p) (hne : p ≠ "") (hmem : p ∈ fs)
    (hclient : ∀ u k, env.createClient u k = .ok ()) :
    (extract_frames_node env st fs).2 = cleanup_temp_file (some p) fs := by
  simp only [extract_frames_node, hpath, hclient]
  split
  · rfl
  · split
    · rfl
    · split
      · rename_i hcond
        rcases hcond with h | h
        · exact absurd h hne
        · exact absurd hmem h
      · split
        · rfl
        · split
          · rfl
          · split
            · rfl
            · rfl

/-- C5 (amended): once the video pipeline has created its fresh local temporary
path, and provided the Supabase client construction of video_graph.py line 220
does not raise, the path is absent from the filesystem when the run terminates,
on every terminal path (success, a failure while downloading, uploading or
analyzing, and a failure while extracting or uploading frames); moreover
removal is idempotent and removing an already-missing file is not an error (it
returns the filesystem unchanged).  The client-construction proviso is forced
by the counterexample: that call sits outside every try/except and its failure
propagates without cleanup, leaking the file. -/
theorem video_temp_file_removed (env : VEnv) (st : VideoState) (fs : List String)
    (hfresh : env.tempPath ∉ fs) (hne : env.tempPath ≠ "")
    (hclient : ∀ u k, env.createClient u k = .ok ()) :
    env.tempPath ∉ (videoRun env st fs).2
    ∧ (∀ q gs, cleanup_temp_file (some q) (cleanup_temp_file (some q) gs)
        = cleanup_temp_file (some q) gs)
    ∧ (∀ q gs, q ∉ gs → cleanup_temp_file (some q) gs = gs) := by
  refine ⟨?_, fun q gs => cleanup_idempotent q gs, fun q gs h => cleanup_missing h⟩
  rcases analyze_video_node_cases env st fs hfresh hne with ⟨e, fs2, heq, hnot⟩ | ⟨va, heq⟩
  · unfold videoRun
    rw [heq]
    exact hnot
  · unfold videoRun
    rw [heq]
    show env.tempPath ∉ (extract_frames_node env
      { st with analysis := some va, local_video_path := some env.tempPath }
      (env.tempPath :: fs)).2
    rw [extract_frames_node_cleans env _ (env.tempPath :: fs) env.tempPath rfl hne
      (List.mem_cons_self _ _) hclient]
    exact self_not_mem_cleanup hne _

theorem video_temp_file_removed_witness :
    vWitEnv.tempPath ∉ (videoRun vWitEnv vWitState []).2
    ∧ (∀ q gs, cleanup_temp_file (some q) (cleanup_temp_file (some q) gs)
        = cleanup_temp_file (some q) gs)
    ∧ (∀ q gs, q ∉ gs → cleanup_temp_file (some q) gs = gs) :=
  video_temp_file_removed vWitEnv vWitState [] (by simp) (by decide)
    (fun _ _ => rfl)

/-- C5 (counterexample): with truthy but malformed storage credentials the
configuration check passes and `create_async_client` (video_graph.py line 220)
raises outside every try/except: the run terminates with that error while the
downloaded temporary video is still on disk — so the original claim, that the
path is removed on every terminal path, is false of the program. -/
theorem video_temp_file_leak_counterexample :
    (videoRun leakVEnv vWitState []).1 = .error "SupabaseException: Invalid URL"
    ∧ leakVEnv.tempPath ∈ (videoRun leakVEnv vWitState []).2 := by
  constructor
  · rfl
  · decide

/-- C10: in `extract_frames_node` the zero-key-moments check precedes the
storage-configuration check: a run whose analysis has no key moments returns an
empty frame list and deletes the local video without consulting the Supabase
configuration — it succeeds even when that configuration is missing — and the
fail-fast configuration error can only arise when at least one key moment is
present. -/
theorem zero_key_moments_before_config (env : VEnv) (st : VideoState)
    (fs : List String) :
    ((st.analysis = none ∨ ∃ a, st.analysis = some a ∧ a.key_frames = []) →
      extract_frames_node env st fs = (.ok [], cleanup_temp_file st.local_video_path fs))
    ∧ ((extract_frames_node env st fs).1
          = .error "Supabase configuration missing for frame upload." →
        ∃ a, st.analysis = some a ∧ a.key_frames ≠ []) := by
  constructor
  · intro h
    rcases h with h | ⟨a, ha, hkf⟩
    · simp [extract_frames_node, h]
    · simp [extract_frames_node, ha, hkf]
  · intro h
    cases hA : st.analysis with
    | none =>
      unfold extract_frames_node at h
      rw [hA] at h
      simp at h
    | some a =>
      unfold extract_frames_node at h
      rw [hA] at h
      by_cases hkf : a.key_frames = []
      · simp [hkf] at h
      · exact ⟨a, rfl, hkf⟩

theorem zero_key_moments_before_config_witness :
    extract_frames_node noConfigVEnv
      { video_file := { name := "clip.mp4", type := "video/mp4" },
        local_video_path := some "/tmp/videos/run2_clip.mp4",
        analysis := some { description := "walkthrough", key_frames := [] } }
      ["/tmp/videos/run2_clip.mp4"]
      = (.ok [], cleanup_temp_file (some "/tmp/videos/run2_clip.mp4")
          ["/tmp/videos/run2_clip.mp4"]) :=
  (zero_key_moments_before_config noConfigVEnv
    { video_file := { name := "clip.mp4", type := "video/mp4" },
      local_video_path := some "/tmp/videos/run2_clip.mp4",
      analysis := some { description := "walkthrough", key_frames := [] } }
    ["/tmp/videos/run2_clip.mp4"]).1 (Or.inr ⟨_, rfl, rfl⟩)

theorem extract_eq_filterMap (env : VEnv) (path : String) :
    ∀ moments : List KeyFrame,
      (∀ kf ∈ moments, ∃ r, env.ffmpeg path kf.timestamp_s = .ok r) →
      extract_key_frames_locally env path moments
        = .ok (moments.filterMap fun kf =>
            (ffmpegOutcome env path kf).map fun b => (kf, b, frameFilename kf)) := by
  intro moments
  induction moments with
  | nil => intro _; rfl
  | cons kf rest ih =>
    intro hok
    obtain ⟨r, hr⟩ := hok kf (List.mem_cons_self kf rest)
    have ihr := ih (fun x hx => hok x (List.mem_cons_of_mem kf hx))
    simp only [extract_key_frames_locally, hr, ihr, List.filterMap_cons, ffmpegOutcome]
    by_cases hrc : r.returncode = 0
    · by_cases hso : r.stdout = []
      · simp [hrc, hso]
      · simp [hrc, hso]
    · simp [hrc]

/-- C6 (amended): when the decoder raises no exception and fails (non-zero exit
or empty output) for a strict subset of the key moments, frame extraction
returns exactly the successfully decoded subset, in the original key-moment
order, without aborting the run; each returned frame is named by the moment's
suggested filename when that is present and non-empty, and otherwise by
`frame_ts_{timestamp with 2 decimal places}.png` (an empty suggested filename
falls back to the default, because the code uses Python `or`). -/
theorem partial_frame_extraction (env : VEnv) (path : String)
    (moments : List KeyFrame)
    (hok : ∀ kf ∈ moments, ∃ r, env.ffmpeg path kf.timestamp_s = .ok r)
    (_hsub : ∃ kf ∈ moments, (ffmpegOutcome env path kf).isSome = true) :
    extract_key_frames_locally env path moments
      = .ok (moments.filterMap fun kf =>
          (ffmpegOutcome env path kf).map fun b => (kf, b, frameFilename kf))
    ∧ (∀ kf : KeyFrame, ∀ s, kf.filename = some s → s ≠ "" → frameFilename kf = s)
    ∧ (∀ kf : KeyFrame, kf.filename = none →
        frameFilename kf = "frame_ts_" ++ pyFormatF2 kf.timestamp_s ++ ".png")
    ∧ (∀ kf : KeyFrame, kf.filename = some "" →
        frameFilename kf = "frame_ts_" ++ pyFormatF2 kf.timestamp_s ++ ".png") := by
  refine ⟨extract_eq_filterMap env path moments hok, ?_, ?_, ?_⟩
  · intro kf s hs hsne
    simp [frameFilename, hs, hsne]
  · intro kf h
    simp [frameFilename, h]
  · intro kf h
    simp [frameFilename, h]

theorem partial_frame_extraction_witness :
    extract_key_frames_locally vWitEnv "/tmp/videos/run1_clip.mp4" [kfShot, kfMiss]
      = .ok [(kfShot, [7], "shot.png")] :=
  (partial_frame_extraction vWitEnv "/tmp/videos/run1_clip.mp4" [kfShot, kfMiss]
    (by
      intro kf hkf
      simp only [List.mem_cons, List.not_mem_nil, or_false] at hkf
      rcases hkf with rfl | rfl
      · exact ⟨_, rfl⟩
      · exact ⟨_, rfl⟩)
    ⟨kfShot, List.mem_cons_self _ _, by decide⟩).1

/-- C6 (counterexample): the claim says a present `suggestedFilename` is used,
but for a moment whose suggested filename is the empty string the decoder
output is renamed to the timestamp default `frame_ts_1.00.png` — Python `or`
treats the present-but-empty suggestion as absent. -/
theorem frame_filename_counterexample :
    kfEmptyName.filename = some ""
    ∧ extract_key_frames_locally vWitEnv "/tmp/videos/run1_clip.mp4" [kfEmptyName]
        = .ok [(kfEmptyName, [7], "frame_ts_1.00.png")]
    ∧ ("frame_ts_1.00.png" : String) ≠ "" :=
  ⟨rfl, rfl, by decide⟩

